import Mathlib

/-!
Verification of `src/libraries/lib-utility/PackedArray.h` (Audacity).

The header defines, in namespace `PackedArray`:
  - `Traits<T>`: layout traits (header_type, element_type, iterated_type);
  - `Deleter<Type, BaseDeleter>`: remembers an element count `mCount` computed
    from a byte size and, when invoked on a non-null pointer, destroys the
    elements in decreasing index order, then the header, then calls the base
    deallocation;
  - `Ptr<Type, BaseDeleter>`: a `unique_ptr` with that deleter, plus
    `operator[]`, and free functions `Count`, `begin`, `end`;
  - a tagged `operator new(size_t, PackedArray_t, size_t)` that enlarges the
    allocation, a matching `operator delete`, and the factories
    `AllocateBytes` / `AllocateCount`.

The shallow embedding below models C++ `size_t` arithmetic as `Nat` with
explicit reduction modulo `2 ^ 64`, addresses as `Nat`, pointers as
`Option Nat`, and the observable effects of destruction / allocation as lists
of events.  A C++ type's layout facts (the various `sizeof` values and
`offsetof(Overlay, elements)`) are gathered in a `Traits` structure; under the
Itanium and MSVC ABIs the `sizeof` of the empty default `header_type {}` is
exactly 1 (the C++ standard guarantees it is nonzero), which is recorded in
the concrete instances below.
-/

/-- Width of C++ `size_t` on the 64-bit targets Audacity builds for. -/
def sizeTMod : Nat := 2 ^ 64

/-- C++ unsigned subtraction `a - b` on `size_t`: wraps modulo `2 ^ 64`.
Callers pass `a`, `b` already reduced below `2 ^ 64`. -/
def subWrap (a b : Nat) : Nat := (a + (sizeTMod - b % sizeTMod)) % sizeTMod

/-- Layout data of a managed C++ type `Type` together with its
`PackedArray::Traits<Type>` specialization, as the compiler lays it out:
`headerSizeof` is the C++ `sizeof(header_type)` (nonzero even for an empty
header), `headerIsEmpty` is `std::is_empty_v<header_type>`, `elementSizeof`
and `iteratedSizeof` are `sizeof(element_type)` / `sizeof(iterated_type)`,
`managedSizeof` is `sizeof(Type)`, and `overlaySizeof` / `overlayOffset` are
`sizeof(Overlay)` and `offsetof(Overlay, elements)` for the deleter's
`struct Overlay : header_type { element_type elements[1]; }`. -/
structure Traits where
  headerSizeof : Nat
  headerIsEmpty : Bool
  elementSizeof : Nat
  iteratedSizeof : Nat
  managedSizeof : Nat
  overlaySizeof : Nat
  overlayOffset : Nat
deriving DecidableEq

/-- `PackedArray::Traits<int>` (the primary template): empty `header_type {}`
of sizeof 1, `element_type = iterated_type = int` of sizeof 4; the `Overlay`
collapses to `int elements[1]` by empty-base optimization. -/
def intTraits : Traits where
  headerSizeof := 1
  headerIsEmpty := true
  elementSizeof := 4
  iteratedSizeof := 4
  managedSizeof := 4
  overlaySizeof := 4
  overlayOffset := 0

/-- A header-bearing specialization: `header_type` with sizeof 8 (e.g. two
ints), `element_type = int`, managed type
`struct X { int a; int b; int arr[1]; }` of sizeof 12, overlay offset 8. -/
def headerTraits : Traits where
  headerSizeof := 8
  headerIsEmpty := false
  elementSizeof := 4
  iteratedSizeof := 4
  managedSizeof := 12
  overlaySizeof := 12
  overlayOffset := 8

/-- A header-bearing specialization whose overlay offset differs from
`sizeof(header_type)` because of alignment: `struct H { char c; };`
(sizeof 1) with `int` elements (align 4) gives
`offsetof(Overlay, elements) = 4`; the managed type
`struct X { char c; int arr[1]; }` has sizeof 8, as does the overlay. -/
def charHeaderTraits : Traits where
  headerSizeof := 1
  headerIsEmpty := false
  elementSizeof := 4
  iteratedSizeof := 4
  managedSizeof := 8
  overlaySizeof := 8
  overlayOffset := 4

/-- First static assertion of `Deleter` (PackedArray.h line 53):
`sizeof(Overlay) == sizeof(managed_type)`. -/
def staticAssertSize (t : Traits) : Prop := t.overlaySizeof = t.managedSizeof

/-- The integral expression of the second static assertion
(PackedArray.h lines 55-56) exactly as C++ parses it: `==` binds tighter
than `?:`, so the asserted expression is
`(offsetof(Overlay, elements) == std::is_empty_v<header_type>) ? 0 : sizeof(header_type)`,
with the `bool` promoted to 1 or 0 for the comparison. -/
def offsetAssertExpr (t : Traits) : Nat :=
  if t.overlayOffset = (if t.headerIsEmpty then 1 else 0) then 0
  else t.headerSizeof

/-- The second static assertion passes iff its expression is nonzero. -/
def staticAssertOffset (t : Traits) : Prop := offsetAssertExpr t ≠ 0

/-- The offset property the spec attributes to that assertion: the element
array's byte offset is 0 for an empty header and `sizeof(header_type)`
otherwise.  Stated from the spec's words, for comparison with
`staticAssertOffset` as coded. -/
def specOffsetProp (t : Traits) : Prop :=
  t.overlayOffset = if t.headerIsEmpty then 0 else t.headerSizeof

/-- Element count stored by `Deleter`'s constructor (PackedArray.h
lines 60-61): `mCount{ (size - sizeof(header_type)) / sizeof(element_type) }`
in `size_t` arithmetic.  Note: the full `sizeof(header_type)`, not the
`is_empty_v ? 0 : sizeof(header_type)` used elsewhere in the header. -/
def deleterCount (t : Traits) (size : Nat) : Nat :=
  subWrap (size % sizeTMod) t.headerSizeof / t.elementSizeof

/-- Observable effects during teardown and allocation. -/
inductive Event where
  | destroyElement (i : Nat)
  | destroyHeader
  | dealloc
  | allocRaw (bytes : Nat)
  | constructT
  | deallocRaw
deriving DecidableEq

/-- The destruction loop of `Deleter::operator()` (PackedArray.h lines 71-74):
`pE` starts at `elements + mCount` and
`for (auto count = mCount; count--;) (--pE)->~element_type();`
destroys index `count` after predecrementing, so indices
`mCount-1, mCount-2, ..., 0`. -/
def destroyElementsLoop : Nat → List Event
  | 0 => []
  | Nat.succ n => Event.destroyElement n :: destroyElementsLoop n

/-- `Deleter::operator()(Type *p)` (PackedArray.h lines 63-79): if `p` is
null return immediately; otherwise run the element-destruction loop, destroy
the header, and perform the base deallocation `((base_type&)*this)(p)`. -/
def deleterCall (mCount : Nat) (p : Option Nat) : List Event :=
  match p with
  | none => []
  | some _ => destroyElementsLoop mCount ++ [Event.destroyHeader, Event.dealloc]

/-- Recognizer for element-destruction events. -/
def isDestroyElement : Event → Bool
  | Event.destroyElement _ => true
  | _ => false

/-- The loop emits exactly the destruction of indices `N-1, ..., 0`. -/
theorem destroyElementsLoop_eq (N : Nat) :
    destroyElementsLoop N = (List.range N).reverse.map Event.destroyElement := by
  induction N with
  | zero => rfl
  | succ n ih =>
      rw [destroyElementsLoop, ih, List.range_succ, List.reverse_append]
      rfl

/-- C1: invoking the deleter with stored count `N` on a non-null pointer
destroys elements at indices `N-1, N-2, ..., 0` in strictly decreasing order,
then destroys the header exactly once, then performs exactly one base
deallocation, in that order. -/
theorem deleter_teardown_order (N addr : Nat) :
    deleterCall N (some addr) =
      (List.range N).reverse.map Event.destroyElement
        ++ [Event.destroyHeader, Event.dealloc] ∧
    (deleterCall N (some addr)).count Event.destroyHeader = 1 ∧
    (deleterCall N (some addr)).count Event.dealloc = 1 := by
  refine ⟨by rw [deleterCall, destroyElementsLoop_eq], ?_, ?_⟩ <;>
    · rw [deleterCall, List.count_append, destroyElementsLoop_eq,
        List.count_eq_zero_of_not_mem, Nat.zero_add]
      · rfl
      · simp [List.mem_map]

/-- C4: invoking the deleter on a null pointer performs no element
destruction, no header destruction, and no base deallocation, for every
stored count; destroying a default-constructed (null) owning pointer is a
no-op. -/
theorem deleter_null_noop (N : Nat) :
    deleterCall N none = [] ∧
    (deleterCall N none).count Event.destroyHeader = 0 ∧
    (deleterCall N none).count Event.dealloc = 0 ∧
    (deleterCall N none).countP (fun e => isDestroyElement e) = 0 := by
  exact ⟨rfl, rfl, rfl, rfl⟩

/-- The state a `PackedArray::Ptr<Type>` carries: the owned block's byte
address (`std::unique_ptr::get()`, none when null) and the `mCount` stored
in its `Deleter`. -/
structure PtrState where
  block : Option Nat
  mCount : Nat
deriving DecidableEq

/-- Free function `Count(p)` (PackedArray.h lines 104-108): returns
`p.get_deleter().GetCount()`, i.e. the stored `mCount`. -/
def Count (p : PtrState) : Nat := p.mCount

/-- A default-constructed `Ptr`: the `unique_ptr` is null and its deleter was
default-constructed, i.e. built with `size = 0`. -/
def defaultPtr (t : Traits) : PtrState where
  block := none
  mCount := deleterCount t 0

/-- Free function `begin(p)` (PackedArray.h lines 111-122): null when
`p.get()` is null, otherwise the block address advanced by
`std::is_empty_v<header_type> ? 0 : sizeof(header_type)` bytes, viewed as an
`iterated_type` pointer (modeled as a byte address). -/
def beginPtr (t : Traits) (p : PtrState) : Option Nat :=
  match p.block with
  | none => none
  | some a => some (a + (if t.headerIsEmpty then 0 else t.headerSizeof))

/-- Free function `end(p)` (PackedArray.h lines 125-132): starts from
`begin(p)` and, only when that is non-null, advances it by `Count(p)`
elements, i.e. `Count(p) * sizeof(iterated_type)` bytes. -/
def endPtr (t : Traits) (p : PtrState) : Option Nat :=
  match beginPtr t p with
  | none => none
  | some b => some (b + Count p * t.iteratedSizeof)

/-- `Ptr::operator[](size_t ii)` (PackedArray.h lines 97-100): the address of
`*(begin(*this) + ii)`, i.e. `begin` advanced by `ii` elements.  No bounds
check and no null check are performed; only the address computation is
modeled. -/
def ptrSubscript (t : Traits) (p : PtrState) (ii : Nat) : Option Nat :=
  (beginPtr t p).map (fun b => b + ii * t.iteratedSizeof)

/-- C7: `begin` is the block address advanced by `sizeof(header_type)` bytes
for a non-empty header and 0 bytes for an empty one, and is null for a null
block; `end` is `begin + Count` elements when `begin` is non-null and null
otherwise; hence a null handle iterates over nothing and `begin = end` when
the stored count is 0. -/
theorem begin_end_spec (t : Traits) (p : PtrState) :
    (p.block = none → beginPtr t p = none ∧ endPtr t p = none) ∧
    (∀ a, p.block = some a →
      beginPtr t p = some (a + (if t.headerIsEmpty then 0 else t.headerSizeof)) ∧
      endPtr t p = some (a + (if t.headerIsEmpty then 0 else t.headerSizeof)
        + Count p * t.iteratedSizeof)) ∧
    (Count p = 0 → endPtr t p = beginPtr t p) := by
  refine ⟨fun h => ?_, fun a h => ?_, fun h => ?_⟩
  · simp [beginPtr, endPtr, h]
  · simp [beginPtr, endPtr, h]
  · rw [endPtr, h]
    cases hb : beginPtr t p with
    | none => rfl
    | some b => simp

/-- Closed instance of `begin_end_spec`: for `Traits<int>` and a pointer at
address 100 holding count 3, `begin` is 100 and `end` is 112; for count 0,
`end` equals `begin`. -/
theorem begin_end_spec_witness :
    beginPtr intTraits ⟨some 100, 3⟩ = some 100 ∧
    endPtr intTraits ⟨some 100, 3⟩ = some 112 ∧
    endPtr intTraits ⟨some 100, 0⟩ = beginPtr intTraits ⟨some 100, 0⟩ := by
  refine ⟨?_, ?_, (begin_end_spec intTraits ⟨some 100, 0⟩).2.2 rfl⟩
  · have h := ((begin_end_spec intTraits ⟨some 100, 3⟩).2.1 100 rfl).1
    simpa using h
  · have h := ((begin_end_spec intTraits ⟨some 100, 3⟩).2.1 100 rfl).2
    simpa using h

/-- C8: indexed access computes `begin + i` elements, a result that does not
depend on the stored count `mCount` in any way — in particular it is the same
whether or not `i < Count p`, i.e. there is no bounds check. -/
theorem subscript_no_bounds_check (t : Traits) (p : PtrState) (i c : Nat) :
    ptrSubscript t { p with mCount := c } i = ptrSubscript t p i ∧
    ptrSubscript t p i =
      match p.block with
      | none => none
      | some a => some (a + (if t.headerIsEmpty then 0 else t.headerSizeof)
          + i * t.iteratedSizeof) := by
  constructor
  · rfl
  · rw [ptrSubscript, beginPtr]
    cases p.block <;> rfl

/-- The tagged `operator new(size_t size, PackedArray_t, size_t enlarged)`
(PackedArray.h lines 142-144): forwards to the global allocator with
`std::max(size, enlarged)` bytes.  In the new-expression inside
`AllocateBytes`, the compiler passes `size = sizeof(Type)`. -/
def packedNewSize (size enlarged : Nat) : Nat := max size enlarged

/-- Result of invoking the callable returned by `AllocateBytes<Type>`
(PackedArray.h lines 159-168): the list of observable allocation events and,
on success, the resulting `Ptr` state paired with the argument that was
passed to the `Deleter` constructor. -/
structure AllocRun where
  events : List Event
  result : Option (PtrState × Nat)
deriving DecidableEq

/-- Invocation of the callable returned by `AllocateBytes<Type>(enlarged)`
(PackedArray.h lines 159-168).  The new-expression
`safenew(PackedArrayArg, enlarged) Type{...}` first calls the tagged
`operator new(sizeof(Type), PackedArrayArg, enlarged)`, then constructs
`Type` in place; `ctorThrows` selects whether that constructor exits by an
exception.  If it does, C++ calls the matching
`operator delete(void*, PackedArray_t, size_t)` (PackedArray.h lines
146-149), which releases the raw memory once, and no object was ever
constructed so no destructor runs.  On success, the `Ptr` wraps the address
with a `Deleter` constructed from `std::max(sizeof(Type), enlarged)`. -/
def allocateBytesRun (t : Traits) (enlarged addr : Nat) (ctorThrows : Bool) :
    AllocRun :=
  let allocSize := packedNewSize t.managedSizeof enlarged
  if ctorThrows then
    { events := [Event.allocRaw allocSize, Event.deallocRaw]
      result := none }
  else
    let arg := max t.managedSizeof enlarged
    { events := [Event.allocRaw allocSize, Event.constructT]
      result := some ({ block := some addr, mCount := deleterCount t arg }, arg) }

/-- Recognizer for raw-allocation events. -/
def isAllocRaw : Event → Bool
  | Event.allocRaw _ => true
  | _ => false

/-- C6: on the successful path, invoking the callable of
`AllocateBytes<T>(totalBytes)` performs exactly one raw allocation, of
exactly `max(sizeof(T), totalBytes)` bytes — never less than `sizeof(T)` —
constructs `T` in place, and initializes the resulting owning pointer's
deleter with that same size `max(sizeof(T), totalBytes)`. -/
theorem allocateBytes_alloc_size (t : Traits) (enlarged addr : Nat) :
    (allocateBytesRun t enlarged addr false).events =
      [Event.allocRaw (max t.managedSizeof enlarged), Event.constructT] ∧
    ((allocateBytesRun t enlarged addr false).events.countP
      (fun e => isAllocRaw e)) = 1 ∧
    t.managedSizeof ≤ max t.managedSizeof enlarged ∧
    (allocateBytesRun t enlarged addr false).result =
      some ({ block := some addr,
              mCount := deleterCount t (max t.managedSizeof enlarged) },
            max t.managedSizeof enlarged) := by
  exact ⟨rfl, rfl, Nat.le_max_left _ _, rfl⟩

/-- C9: if the constructor of the managed type throws after the enlarged
allocation succeeded, the raw memory is released exactly once by the
matching `operator delete`, no element or header destructor runs, nothing
was constructed, and no owning pointer is formed. -/
theorem allocateBytes_ctor_throw (t : Traits) (enlarged addr : Nat) :
    (allocateBytesRun t enlarged addr true).events =
      [Event.allocRaw (max t.managedSizeof enlarged), Event.deallocRaw] ∧
    ((allocateBytesRun t enlarged addr true).events.count Event.deallocRaw) = 1 ∧
    ((allocateBytesRun t enlarged addr true).events.countP
      (fun e => isDestroyElement e)) = 0 ∧
    ((allocateBytesRun t enlarged addr true).events.count Event.destroyHeader) = 0 ∧
    ((allocateBytesRun t enlarged addr true).events.count Event.dealloc) = 0 ∧
    (allocateBytesRun t enlarged addr true).result = none := by
  exact ⟨rfl, rfl, rfl, rfl, rfl, rfl⟩

/-- Byte size computed by `AllocateCount<Type>(count)` (PackedArray.h lines
179-185): `(is_empty_v<header_type> ? 0 : sizeof(header_type)) +
count * sizeof(element_type)` in `size_t` arithmetic. -/
def allocateCountBytes (t : Traits) (count : Nat) : Nat :=
  ((if t.headerIsEmpty then 0 else t.headerSizeof)
    + count * t.elementSizeof) % sizeTMod

/-- The `Count` reported by the pointer produced by
`AllocateCount<Type>(count)`: `AllocateCount` forwards its byte total to
`AllocateBytes`, whose deleter is constructed with
`max(sizeof(Type), bytes)`. -/
def allocateCountResult (t : Traits) (count : Nat) : Nat :=
  deleterCount t (max t.managedSizeof (allocateCountBytes t count))

/-- C2, evaluated at the failing input: for `Traits<int>` (empty header,
`sizeof(header_type) = 1`, `sizeof(int) = 4`), `AllocateCount<int>(5)`
allocates 20 bytes but the deleter stores `(20 - 1) / 4 = 4`, so `Count`
returns 4, not the 5 the claim requires; meanwhile the header-bearing
layout does satisfy `max(count, 1)` at every count in {0, 1, 5, 100}. -/
theorem allocateCount_count_mismatch :
    allocateCountResult intTraits 5 = 4 ∧
    allocateCountResult intTraits 5 ≠ 5 ∧
    allocateCountResult intTraits 0 = 0 ∧
    allocateCountResult intTraits 1 = 0 ∧
    allocateCountResult intTraits 100 = 99 ∧
    allocateCountResult headerTraits 0 = 1 ∧
    allocateCountResult headerTraits 1 = 1 ∧
    allocateCountResult headerTraits 5 = 5 ∧
    allocateCountResult headerTraits 100 = 100 := by
  refine ⟨?_, ?_, ?_, ?_, ?_, ?_, ?_, ?_, ?_⟩ <;> decide

/-- Wrapped subtraction below the modulus: when `a < b < 2 ^ 64`, the
`size_t` difference `a - b` is `2 ^ 64 - (b - a)`. -/
theorem subWrap_of_lt (a b : Nat) (h1 : a < b) (h2 : b < sizeTMod) :
    subWrap a b = sizeTMod - (b - a) := by
  have hb : b % sizeTMod = b := Nat.mod_eq_of_lt h2
  rw [subWrap, hb, Nat.mod_eq_of_lt (by omega)]
  omega

/-- C5: the deleter constructor stores
`(size - sizeof(header_type)) / sizeof(element_type)` in unsigned machine
arithmetic with no validation; for every byte size smaller than the header
size the subtraction wraps modulo `2 ^ 64`, and under the realistic bounds
`sizeof(header_type) ≤ 2 ^ 32` and `1 ≤ sizeof(element_type) ≤ 2 ^ 32` the
stored count is at least `2 ^ 32 - 1`: a huge value, larger than any element
count such an allocation could hold. -/
theorem deleterCount_underflow (t : Traits) (size : Nat)
    (h1 : size < t.headerSizeof) (h2 : t.headerSizeof ≤ 2 ^ 32)
    (h3 : 1 ≤ t.elementSizeof) (h4 : t.elementSizeof ≤ 2 ^ 32) :
    deleterCount t size =
      (2 ^ 64 - (t.headerSizeof - size)) / t.elementSizeof ∧
    2 ^ 32 - 1 ≤ deleterCount t size := by
  have hm : sizeTMod = 2 ^ 64 := rfl
  have hsize : size % sizeTMod = size := Nat.mod_eq_of_lt (by rw [hm]; omega)
  have heq : deleterCount t size
      = (2 ^ 64 - (t.headerSizeof - size)) / t.elementSizeof := by
    rw [deleterCount, hsize,
      subWrap_of_lt size t.headerSizeof h1 (by rw [hm]; omega), hm]
  refine ⟨heq, ?_⟩
  rw [heq]
  refine (Nat.le_div_iff_mul_le h3).mpr ?_
  calc (2 ^ 32 - 1) * t.elementSizeof
      ≤ (2 ^ 32 - 1) * 2 ^ 32 := Nat.mul_le_mul_left _ h4
    _ ≤ 2 ^ 64 - (t.headerSizeof - size) := by omega

/-- Closed instance of `deleterCount_underflow`: for `Traits<int>` a deleter
built from byte size 0 (smaller than the 1-byte header sizeof) stores
`(2 ^ 64 - 1) / 4`, which is at least `2 ^ 32 - 1`. -/
theorem deleterCount_underflow_witness :
    (0 : Nat) < intTraits.headerSizeof ∧
    deleterCount intTraits 0 = (2 ^ 64 - 1) / 4 ∧
    2 ^ 32 - 1 ≤ deleterCount intTraits 0 := by
  have h := deleterCount_underflow intTraits 0 (by decide) (by decide)
    (by decide) (by decide)
  exact ⟨by decide, by simpa [intTraits] using h.1, h.2⟩

/-- C10: a default-constructed deleter is built with size 0 and stores
`(0 - sizeof(header_type)) / sizeof(element_type)` with the subtraction
wrapped modulo `2 ^ 64`; since the `sizeof` of even an empty header type is
nonzero, this always underflows, so `Count` of a default-constructed (null)
owning pointer is a huge wrapped value — at least `2 ^ 32 - 1` under the
bounds below — and never 0. -/
theorem count_of_defaultPtr (t : Traits)
    (h1 : 1 ≤ t.headerSizeof) (h2 : t.headerSizeof ≤ 2 ^ 32)
    (h3 : 1 ≤ t.elementSizeof) (h4 : t.elementSizeof ≤ 2 ^ 32) :
    Count (defaultPtr t) = (2 ^ 64 - t.headerSizeof) / t.elementSizeof ∧
    2 ^ 32 - 1 ≤ Count (defaultPtr t) ∧
    Count (defaultPtr t) ≠ 0 := by
  have hm : sizeTMod = 2 ^ 64 := rfl
  have hC : Count (defaultPtr t) = deleterCount t 0 := rfl
  have heq : Count (defaultPtr t)
      = (2 ^ 64 - t.headerSizeof) / t.elementSizeof := by
    rw [hC, deleterCount, Nat.zero_mod,
      subWrap_of_lt 0 t.headerSizeof (by omega) (by rw [hm]; omega), hm,
      Nat.sub_zero]
  have hge : 2 ^ 32 - 1 ≤ Count (defaultPtr t) := by
    rw [heq]
    refine (Nat.le_div_iff_mul_le h3).mpr ?_
    calc (2 ^ 32 - 1) * t.elementSizeof
        ≤ (2 ^ 32 - 1) * 2 ^ 32 := Nat.mul_le_mul_left _ h4
      _ ≤ 2 ^ 64 - t.headerSizeof := by omega
  exact ⟨heq, hge, by omega⟩

/-- Closed instance of `count_of_defaultPtr`: for `Traits<int>` the
default-constructed owning pointer reports `Count = (2 ^ 64 - 1) / 4`, not
0. -/
theorem count_of_defaultPtr_witness :
    1 ≤ intTraits.headerSizeof ∧
    Count (defaultPtr intTraits) = (2 ^ 64 - 1) / 4 ∧
    Count (defaultPtr intTraits) ≠ 0 := by
  have h := count_of_defaultPtr intTraits (by decide) (by decide)
    (by decide) (by decide)
  exact ⟨by decide, by simpa [intTraits] using h.1, h.2.2⟩

/-- C3: the first static assertion does enforce
`sizeof(Overlay) == sizeof(managed_type)`, but the second does not enforce
the claimed offset property.  In C++, `==` binds tighter than `?:`, so the
asserted expression is
`(offsetof(Overlay, elements) == is_empty) ? 0 : sizeof(header_type)`.
For the layout `charHeaderTraits` — a non-empty one-byte header with 4-byte
aligned `int` elements, where the overlay's element array sits at byte
offset 4 ≠ sizeof(header_type) = 1 — both assertions pass, so the violating
specialization compiles; the well-behaved `intTraits` layout also passes and
satisfies the claimed property. -/
theorem staticAssert_offset_not_enforced :
    staticAssertSize charHeaderTraits ∧
    staticAssertOffset charHeaderTraits ∧
    ¬ specOffsetProp charHeaderTraits ∧
    staticAssertSize intTraits ∧
    staticAssertOffset intTraits ∧
    specOffsetProp intTraits := by
  refine ⟨rfl, ?_, ?_, rfl, ?_, ?_⟩
  · unfold staticAssertOffset offsetAssertExpr
    decide
  · unfold specOffsetProp
    decide
  · unfold staticAssertOffset offsetAssertExpr
    decide
  · unfold specOffsetProp
    decide
